import Mathlib

/-!
Verification development for the compliance-autopilot repository.

The repository's source under scrutiny is the Next.js frontend
(`src/frontend/src/app/page.tsx`, the dashboard component, and the scan
form in `src/unnamed/part_000`).  The backend scan pipeline described by
the specification is not present in the repository, so the Risk
Analyzer's scoring and grading functions are modelled from the spec and
compared against the concrete reports the frontend code produces.

All definitions below are shallow embeddings of the TypeScript source:
pure data is embedded as Lean structures and lists, and the only
impurities (`new Date()` and the outcome of the `fetch` call) are made
explicit parameters.
-/

namespace ComplianceAutopilot

/-- Severity levels of a finding, from `page.tsx` (`Finding.severity`
union type: critical, high, medium, low). -/
inductive Severity where
  | critical
  | high
  | medium
  | low
deriving DecidableEq, Repr

/-- Compliance frameworks, from `page.tsx` (`Finding.framework` union
type: SOC2, GDPR, HIPAA). -/
inductive Framework where
  | SOC2
  | GDPR
  | HIPAA
deriving DecidableEq, Repr

/-- Embeds the `Finding` interface of `page.tsx`, field for field. -/
structure Finding where
  id : String
  severity : Severity
  framework : Framework
  control : String
  title : String
  description : String
  remediation : String
  artifact : String
deriving DecidableEq, Repr

/-- Embeds the `AgentLog` interface of `page.tsx`, field for field. -/
structure AgentLog where
  agent : String
  action : String
  result : String
  duration_ms : Nat
deriving DecidableEq, Repr

/-- Embeds the `ScanResult` interface of `page.tsx`, field for field. -/
structure ScanResult where
  project_url : String
  score : Int
  grade : String
  findings : List Finding
  evidence_markdown : String
  agents_log : List AgentLog
  scanned_at : String
deriving DecidableEq, Repr

/-- The field names of the `ScanResult` interface in `page.tsx`, in
source order.  Used to reason about which fields the report type
exposes. -/
def scanResultFields : List String :=
  ["project_url", "score", "grade", "findings", "evidence_markdown",
   "agents_log", "scanned_at"]

/-- The `agents_log` list of the report built by `getMockResult` in
`page.tsx`, verbatim. -/
def mockAgentsLog : List AgentLog :=
  [⟨"PlannerAgent", "Enumerate compliance surfaces",
    "Found 4 surfaces: MRs, Pipelines, Issues, Settings", 312⟩,
   ⟨"ScannerAgent", "Scan MR approval rules",
    "2 critical findings: no required approvals on 3 MRs", 891⟩,
   ⟨"AnalyzerAgent", "Cross-reference SOC2 CC6.1",
    "Access control drift detected in 2 pipelines", 1203⟩,
   ⟨"ReporterAgent", "Generate evidence bundle",
    "Report generated: 4 findings, 2 critical", 445⟩]

/-- The `findings` list of the report built by `getMockResult` in
`page.tsx`, verbatim (fields in interface order: id, severity,
framework, control, title, description, remediation, artifact). -/
def mockFindings : List Finding :=
  [⟨"F001", .critical, .SOC2, "CC6.1",
    "MRs merged without required approvals",
    "3 merge requests in the last 30 days were merged with 0 approvals, violating SOC2 CC6.1 access control requirements.",
    "Enable 'Require approvals' in Settings → Merge Requests and set minimum approvals to 2.",
    "MR !42, !51, !67"⟩,
   ⟨"F002", .critical, .GDPR, "Art. 32",
    "Pipeline logs may contain PII",
    "CI pipeline logs in 2 jobs contain email addresses and IP addresses in plaintext, violating GDPR Art. 32 data minimization.",
    "Add log masking rules in .gitlab-ci.yml and enable 'Mask variable' for all sensitive env vars.",
    "Pipeline #1024, Job: deploy-prod"⟩,
   ⟨"F003", .high, .SOC2, "CC7.2",
    "No branch protection on main",
    "The main branch has no push rules, allowing force-pushes and direct commits bypassing review.",
    "Enable branch protection in Settings → Repository → Protected Branches.",
    "Branch: main"⟩,
   ⟨"F004", .medium, .GDPR, "Art. 30",
    "No data processing record in project description",
    "Project handles user data but has no documented data processing activities in the repository.",
    "Add a DATA_PROCESSING.md file documenting data flows per GDPR Art. 30.",
    "Repository root"⟩]

/-- The rows of the findings-summary table inside the evidence Markdown
template of `getMockResult`, in the order they appear in the template
literal. -/
def evidenceTableRows : List String :=
  ["| F001 | 🔴 Critical | SOC2 | CC6.1 | MRs merged without required approvals |",
   "| F002 | 🔴 Critical | GDPR | Art. 32 | Pipeline logs may contain PII |",
   "| F003 | 🟠 High | SOC2 | CC7.2 | No branch protection on main |",
   "| F004 | 🟡 Medium | GDPR | Art. 30 | No data processing record |"]

/-- The `evidence_markdown` template literal of `getMockResult` in
`page.tsx`, character for character; the two interpolations
(the project URL and `new Date().toUTCString()`) are the parameters. -/
def evidenceMarkdownTemplate (projectUrl utcNow : String) : String :=
  "# Compliance Audit Evidence\n\n**Project:** " ++ projectUrl ++
  "\n**Scan Date:** " ++ utcNow ++
  "\n**Score:** 61/100 (Grade C)\n\n## Findings Summary\n\n| ID | Severity | Framework | Control | Title |\n|----|----------|-----------|---------|-------|\n" ++
  String.intercalate "\n" evidenceTableRows ++
  "\n\n## Agent Execution Log\n\n- PlannerAgent: Enumerate compliance surfaces → 312ms\n- ScannerAgent: Scan MR approval rules → 891ms\n- AnalyzerAgent: Cross-reference SOC2 CC6.1 → 1203ms\n- ReporterAgent: Generate evidence bundle → 445ms\n"

/-- Embeds `getMockResult` of `page.tsx`.  The impure calls
`new Date().toISOString()` and `new Date().toUTCString()` are made
explicit parameters `isoNow` and `utcNow`; every other field is the
source's literal data. -/
def getMockResult (projectUrl isoNow utcNow : String) : ScanResult :=
  ⟨projectUrl, 61, "C", mockFindings,
   evidenceMarkdownTemplate projectUrl utcNow, mockAgentsLog, isoNow⟩

/-- Embeds `handleScan` of `page.tsx`: the state stored by
`setScanResult`.  The outcome of the `fetch` + `res.json()` round trip
is the explicit parameter: `some data` when the request succeeds with
payload `data`, `none` when it throws.  On success the parsed payload is
stored as is; on failure the catch block stores
`getMockResult(projectUrl)`. -/
def handleScan (fetchOutcome : Option ScanResult)
    (projectUrl isoNow utcNow : String) : ScanResult :=
  match fetchOutcome with
  | some data => data
  | none => getMockResult projectUrl isoNow utcNow

/-- Modelled from the spec: the Risk Analyzer's per-severity penalty
(critical −15, high −8, medium −4, low −1).  The backend implementing
the Risk Analyzer is not in the repository; only these normative
constants from the spec define it. -/
def severityPenalty : Severity → Int
  | .critical => 15
  | .high => 8
  | .medium => 4
  | .low => 1

/-- Modelled from the spec: the Risk Analyzer's score — start at 100,
subtract the per-severity penalty for each finding, floor at 0. -/
def analyzeScore (findings : List Finding) : Int :=
  max 0 (100 - (findings.map (fun f => severityPenalty f.severity)).sum)

/-- Modelled from the spec: the grade thresholds — A ≥ 90, B ≥ 80,
C ≥ 65, D ≥ 50, else F. -/
def gradeOf (score : Int) : String :=
  if score ≥ 90 then "A"
  else if score ≥ 80 then "B"
  else if score ≥ 65 then "C"
  else if score ≥ 50 then "D"
  else "F"

/-- Rank of a severity in the report ordering critical → high →
medium → low (smaller rank sorts first). -/
def severityRank : Severity → Nat
  | .critical => 0
  | .high => 1
  | .medium => 2
  | .low => 3

/-- Rank of a pipeline stage by the agent name used in `page.tsx`
(Planner, Scanner, Analyzer, Reporter in execution order); any other
agent name ranks last. -/
def stageRank (agent : String) : Nat :=
  if agent = "PlannerAgent" then 0
  else if agent = "ScannerAgent" then 1
  else if agent = "AnalyzerAgent" then 2
  else if agent = "ReporterAgent" then 3
  else 4

/-- Embeds the evidence download handler of `ComplianceDashboard`: the
content of `new Blob([result.evidence_markdown])` is the concatenation
of the listed parts. -/
def blobText (parts : List String) : String :=
  String.join parts

/-- Embeds the downloaded `compliance-evidence.md` artifact: the blob is
built from the single part `result.evidence_markdown`. -/
def downloadEvidence (r : ScanResult) : String :=
  blobText [r.evidence_markdown]

/-- Models JavaScript's `String.prototype.trim`: drop leading and
trailing whitespace characters. -/
def jsTrim (s : String) : String :=
  String.mk (((s.data.dropWhile Char.isWhitespace).reverse.dropWhile
    Char.isWhitespace).reverse)

/-- Embeds `handleSubmit` of the scan form (`src/unnamed/part_000`):
`if (url.trim()) onScan(url.trim(), token.trim() || undefined)`.
Returns the argument pair passed to `onScan`, or `none` when `onScan`
is not invoked.  JavaScript truthiness of a string is non-emptiness,
and `token.trim() || undefined` is `undefined` exactly when the trimmed
token is empty. -/
def handleSubmit (url token : String) : Option (String × Option String) :=
  if jsTrim url = "" then none
  else some (jsTrim url,
    if jsTrim token = "" then none else some (jsTrim token))

/-- C1: the report produced by the program has exactly 2 critical, 1
high and 1 medium finding, for which the spec's severity-penalty scoring
(critical −15, high −8, medium −4, low −1, floored at 0) yields
100 − 15 − 15 − 8 − 4 = 58, yet the produced report's score is 61:
the code's score contradicts the claimed scoring algorithm. -/
theorem c1_score_contradicts_severity_penalties :
    (mockFindings.map Finding.severity).count Severity.critical = 2 ∧
    (mockFindings.map Finding.severity).count Severity.high = 1 ∧
    (mockFindings.map Finding.severity).count Severity.medium = 1 ∧
    (mockFindings.map Finding.severity).count Severity.low = 0 ∧
    analyzeScore mockFindings = 58 ∧
    (getMockResult "https://gitlab.com/demo/sample-project"
      "2026-01-01T00:00:00.000Z" "Thu, 01 Jan 2026 00:00:00 GMT").findings
      = mockFindings ∧
    (getMockResult "https://gitlab.com/demo/sample-project"
      "2026-01-01T00:00:00.000Z" "Thu, 01 Jan 2026 00:00:00 GMT").score = 61 := by
  refine ⟨by decide, by decide, by decide, by decide, by decide, rfl, rfl⟩

/-- C2: the report produced by the program has score 61 and grade "C",
but under the spec's grade thresholds (A ≥ 90, B ≥ 80, C ≥ 65, D ≥ 50,
else F) a score of 61 grades "D": the code's grade contradicts the
claimed thresholds. -/
theorem c2_grade_contradicts_thresholds :
    (getMockResult "https://gitlab.com/demo/sample-project"
      "2026-01-01T00:00:00.000Z" "Thu, 01 Jan 2026 00:00:00 GMT").score = 61 ∧
    (getMockResult "https://gitlab.com/demo/sample-project"
      "2026-01-01T00:00:00.000Z" "Thu, 01 Jan 2026 00:00:00 GMT").grade = "C" ∧
    gradeOf 61 = "D" := by
  refine ⟨rfl, rfl, by decide⟩

/-- C3 counterexample: when the backend request fails (`fetch` throws),
`handleScan` stores the fabricated mock report — with invented score 61
and grade "C" — instead of surfacing an error, refuting the claim that
it never substitutes a fabricated report. -/
theorem c3_counterexample :
    handleScan none "https://gitlab.com/demo/sample-project"
      "2026-01-01T00:00:00.000Z" "Thu, 01 Jan 2026 00:00:00 GMT"
      = getMockResult "https://gitlab.com/demo/sample-project"
        "2026-01-01T00:00:00.000Z" "Thu, 01 Jan 2026 00:00:00 GMT" ∧
    (handleScan none "https://gitlab.com/demo/sample-project"
      "2026-01-01T00:00:00.000Z" "Thu, 01 Jan 2026 00:00:00 GMT").score = 61 ∧
    (handleScan none "https://gitlab.com/demo/sample-project"
      "2026-01-01T00:00:00.000Z" "Thu, 01 Jan 2026 00:00:00 GMT").grade = "C" :=
  ⟨rfl, rfl, rfl⟩

/-- C3 (amended): the caller receives the backend's parsed payload when
the request succeeds, and the fabricated mock report (invented score 61)
when the request fails — `handleScan` does substitute a fabricated
report in place of an error. -/
theorem c3_amended_mock_fallback (d : ScanResult) (url isoNow utcNow : String) :
    handleScan (some d) url isoNow utcNow = d ∧
    handleScan none url isoNow utcNow = getMockResult url isoNow utcNow ∧
    (handleScan none url isoNow utcNow).score = 61 :=
  ⟨rfl, rfl, rfl⟩

/-- C3 witness: the amended fallback behaviour at concrete inputs. -/
theorem c3_witness :
    handleScan (some (getMockResult "a" "b" "c")) "u" "i" "t"
      = getMockResult "a" "b" "c" ∧
    handleScan none "u" "i" "t" = getMockResult "u" "i" "t" :=
  ⟨(c3_amended_mock_fallback (getMockResult "a" "b" "c") "u" "i" "t").1,
   (c3_amended_mock_fallback (getMockResult "a" "b" "c") "u" "i" "t").2.1⟩

/-- C4 counterexample: in the produced report the two critical findings
appear with control "CC6.1" at position 0 and control "Art. 32" at
position 1, although "Art. 32" is lexicographically smaller than
"CC6.1"; so among the equal-severity (critical) findings the order is
not ascending control id, and "Art. 32" does not precede "CC6.1". -/
theorem c4_counterexample :
    (getMockResult "https://gitlab.com/demo/sample-project"
      "2026-01-01T00:00:00.000Z" "Thu, 01 Jan 2026 00:00:00 GMT").findings
      = mockFindings ∧
    mockFindings.map Finding.severity
      = [Severity.critical, Severity.critical, Severity.high, Severity.medium] ∧
    mockFindings.map Finding.control = ["CC6.1", "Art. 32", "CC7.2", "Art. 30"] ∧
    "Art. 32".data < "CC6.1".data := by
  refine ⟨rfl, by decide, by decide, by decide⟩

/-- C4 (amended): the findings list and the evidence table rows are
sorted by severity critical → high → medium → low, but among findings of
equal severity the order is the F-id order (control "CC6.1" before
"Art. 32" for the two critical findings), not ascending control_id. -/
theorem c4_amended_severity_order (url isoNow utcNow : String) :
    (getMockResult url isoNow utcNow).findings = mockFindings ∧
    List.Pairwise (fun a b => severityRank a.severity ≤ severityRank b.severity)
      mockFindings ∧
    mockFindings.map Finding.control = ["CC6.1", "Art. 32", "CC7.2", "Art. 30"] ∧
    evidenceTableRows.map (fun r => r.data.take 6)
      = ["| F001", "| F002", "| F003", "| F004"].map String.data := by
  refine ⟨rfl, by decide, by decide, by decide⟩

/-- C4 witness: the amended ordering facts at a concrete input. -/
theorem c4_witness :
    (getMockResult "https://gitlab.com/demo/sample-project" "i" "t").findings
      = mockFindings ∧
    List.Pairwise (fun a b => severityRank a.severity ≤ severityRank b.severity)
      mockFindings :=
  ⟨(c4_amended_severity_order "https://gitlab.com/demo/sample-project" "i" "t").1,
   (c4_amended_severity_order "https://gitlab.com/demo/sample-project" "i" "t").2.1⟩

/-- C5 counterexample: every field of the `ScanResult` interface is one
of project_url, score, grade, findings, evidence_markdown, agents_log,
scanned_at — there is no further field, so the type exposes no
data-completeness indicator distinct from those. -/
theorem c5_counterexample :
    scanResultFields.all
      (fun f => ["project_url", "score", "grade", "findings",
        "evidence_markdown", "agents_log", "scanned_at"].contains f) = true ∧
    scanResultFields.length = 7 := by
  refine ⟨by decide, by decide⟩

/-- C5 (amended): the `ScanResult` type exposes exactly the seven
fields project_url, score, grade, findings, evidence_markdown,
agents_log, scanned_at, and no data-completeness indicator field. -/
theorem c5_amended_no_completeness_field :
    scanResultFields = ["project_url", "score", "grade", "findings",
      "evidence_markdown", "agents_log", "scanned_at"] ∧
    scanResultFields.contains "completeness" = false ∧
    scanResultFields.contains "complete" = false ∧
    scanResultFields.contains "data_completeness" = false ∧
    scanResultFields.contains "partial" = false := by
  refine ⟨rfl, by decide, by decide, by decide, by decide⟩

/-- C6: the downloaded Markdown artifact — the blob built from
`[result.evidence_markdown]` — is character-for-character the report's
`evidence_markdown` field, unaltered. -/
theorem c6_download_equals_evidence (r : ScanResult) :
    downloadEvidence r = r.evidence_markdown := rfl

/-- C6 witness: the download equality at a concrete report. -/
theorem c6_witness :
    downloadEvidence (getMockResult "u" "i" "t")
      = (getMockResult "u" "i" "t").evidence_markdown :=
  c6_download_equals_evidence (getMockResult "u" "i" "t")

/-- C7: two runs of the scan against the same project URL (the
timestamps may differ between runs) yield reports with the identical
findings list — same ids and all fields equal — and the identical
score. -/
theorem c7_idempotent_findings_and_score
    (url iso1 utc1 iso2 utc2 : String) :
    (getMockResult url iso1 utc1).findings
      = (getMockResult url iso2 utc2).findings ∧
    (getMockResult url iso1 utc1).score = (getMockResult url iso2 utc2).score :=
  ⟨rfl, rfl⟩

/-- C7 witness: idempotence at concrete inputs with different
timestamps. -/
theorem c7_witness :
    (getMockResult "u" "i1" "t1").findings
      = (getMockResult "u" "i2" "t2").findings ∧
    (getMockResult "u" "i1" "t1").score = (getMockResult "u" "i2" "t2").score :=
  c7_idempotent_findings_and_score "u" "i1" "t1" "i2" "t2"

/-- C8 counterexample: the finding ids of the produced report are
exactly the position-indexed serial numbers "F001" … "F004" (the id of
the i-th finding is "F00" followed by i+1), refuting the claim that an
id is derived from the finding's control_id and artifact rather than
being a position-dependent serial number. -/
theorem c8_counterexample :
    mockFindings.map Finding.id
      = (List.range mockFindings.length).map (fun i => "F00" ++ Nat.repr (i + 1)) := by
  decide

/-- C8 (amended): the finding ids are the position-dependent serial
numbers "F001" … "F004" (not derived from control_id and artifact), the
ids are pairwise distinct, and no two findings share the same
(framework, control, artifact) triple. -/
theorem c8_amended_serial_ids_unique_triples :
    mockFindings.map Finding.id = ["F001", "F002", "F003", "F004"] ∧
    (mockFindings.map Finding.id).Nodup ∧
    (mockFindings.map (fun f => (f.framework, f.control, f.artifact))).Nodup := by
  refine ⟨by decide, by decide, by decide⟩

/-- C9: the produced report's agents_log has exactly one entry per
pipeline stage — Planner, Scanner, Analyzer, Reporter — and the entries
appear in stage execution order: every entry of an earlier stage
precedes every entry of a later stage. -/
theorem c9_agents_log_stage_order (url isoNow utcNow : String) :
    (getMockResult url isoNow utcNow).agents_log = mockAgentsLog ∧
    mockAgentsLog.map AgentLog.agent
      = ["PlannerAgent", "ScannerAgent", "AnalyzerAgent", "ReporterAgent"] ∧
    (mockAgentsLog.map AgentLog.agent).contains "PlannerAgent" = true ∧
    (mockAgentsLog.map AgentLog.agent).contains "ScannerAgent" = true ∧
    (mockAgentsLog.map AgentLog.agent).contains "AnalyzerAgent" = true ∧
    (mockAgentsLog.map AgentLog.agent).contains "ReporterAgent" = true ∧
    List.Pairwise (fun a b => stageRank a.agent ≤ stageRank b.agent)
      mockAgentsLog := by
  refine ⟨rfl, by decide, by decide, by decide, by decide, by decide, by decide⟩

/-- C9 witness: the stage-order facts at a concrete input. -/
theorem c9_witness :
    (getMockResult "u" "i" "t").agents_log = mockAgentsLog ∧
    List.Pairwise (fun a b => stageRank a.agent ≤ stageRank b.agent)
      mockAgentsLog :=
  ⟨(c9_agents_log_stage_order "u" "i" "t").1,
   (c9_agents_log_stage_order "u" "i" "t").2.2.2.2.2.2⟩

/-- C10: the scan form submits (invokes `onScan`) only when the URL is
non-empty after trimming; the URL argument is the trimmed URL, and the
token argument is the trimmed token when that is non-empty and
`undefined` (never the empty string) otherwise. -/
theorem c10_handleSubmit_contract (url token : String) :
    (jsTrim url = "" → handleSubmit url token = none) ∧
    (jsTrim url ≠ "" → handleSubmit url token
      = some (jsTrim url,
          if jsTrim token = "" then none else some (jsTrim token))) ∧
    (∀ u t0, handleSubmit url token = some (u, some t0) → t0 ≠ "") := by
  refine ⟨fun h => ?_, fun h => ?_, fun u t0 h => ?_⟩
  · simp [handleSubmit, h]
  · simp [handleSubmit, h]
  · by_cases h1 : jsTrim url = ""
    · simp [handleSubmit, h1] at h
    · by_cases h2 : jsTrim token = ""
      · simp [handleSubmit, h1, h2] at h
      · simp [handleSubmit, h1, h2] at h
        intro ht
        exact h2 (h.2.trans ht)

/-- C10 witness: the submission contract at concrete inputs — a
whitespace-only URL submits nothing, and a padded URL and token are
passed trimmed. -/
theorem c10_witness :
    handleSubmit "   " "tok" = none ∧
    handleSubmit " https://gitlab.com/org/proj " " tok "
      = some (jsTrim " https://gitlab.com/org/proj ",
          if jsTrim " tok " = "" then none else some (jsTrim " tok ")) :=
  ⟨(c10_handleSubmit_contract "   " "tok").1 (by decide),
   (c10_handleSubmit_contract " https://gitlab.com/org/proj " " tok ").2.1
     (by decide)⟩

end ComplianceAutopilot
